import Mathlib

/-!
Verification of the negotiation engine and call classifier of the
happyrobot-inbound freight-brokerage backend.

The embedding models:
* `app/models/negotiation.py` — the `Negotiation` record, its enumerations and
  the pydantic create/update payloads;
* `app/services/negotiation_service.py` — the lifecycle operations
  (`create_negotiation`, `update_negotiation`, `make_counter_offer`,
  `accept_offer`, `reject_offer`, `evaluate_carrier_offer`,
  `cleanup_expired_negotiations`);
* `app/api/negotiations.py` — the duplicate-identifier check performed by the
  create endpoint;
* `app/services/call_service.py` — `classify_call_outcome` and
  `classify_call_sentiment`.

Modelling conventions: the SQL store is a list of negotiation records keyed by
`negotiation_id`; `datetime.utcnow()` becomes an explicit `now : Int` parameter
measured in seconds (so `timedelta(hours=24)` is `86400`); Python `Decimal`
values become `ℚ` (the source's decimal arithmetic here is exact); Python
`None`-able arguments become `Option`; Python string truthiness
(`if carrier_feedback:`) is `none`-or-empty falsiness; `str.lower` is modelled
on ASCII letters, which covers every fixed keyword the classifiers use.
-/

namespace HappyRobot

/-- The `NegotiationStatus` enumeration from `app/models/negotiation.py`. -/
inductive NegotiationStatus where
  | ACTIVE
  | ACCEPTED
  | REJECTED
  | EXPIRED
  deriving DecidableEq

/-- The `OfferType` enumeration from `app/models/negotiation.py`. -/
inductive OfferType where
  | INITIAL
  | COUNTER
  | FINAL
  deriving DecidableEq

/-- The `CallOutcome` enumeration from `app/models/call.py`. -/
inductive CallOutcome where
  | SUCCESSFUL_BOOKING
  | REJECTED_BY_CARRIER
  | FAILED_VERIFICATION
  | NO_SUITABLE_LOADS
  | NEGOTIATION_FAILED
  | TRANSFERRED_TO_SALES
  | CALL_DROPPED
  | SYSTEM_ERROR
  deriving DecidableEq

/-- The `CallSentiment` enumeration from `app/models/call.py`. -/
inductive CallSentiment where
  | POSITIVE
  | NEUTRAL
  | NEGATIVE
  | FRUSTRATED
  | SATISFIED
  deriving DecidableEq

/-- The `Negotiation` database row from `app/models/negotiation.py`. -/
structure Negotiation where
  negotiation_id : String
  call_id : String
  load_id : String
  carrier_mc_number : String
  status : NegotiationStatus
  current_round : Int
  max_rounds : Int
  current_offer_amount : ℚ
  current_offer_by : String
  current_offer_type : OfferType
  original_rate : ℚ
  final_agreed_rate : Option ℚ
  broker_notes : Option String
  carrier_feedback : Option String
  created_at : Int
  updated_at : Int
  expires_at : Option Int
  deriving DecidableEq

/-- The `NegotiationCreate` pydantic payload.  `max_rounds` defaults to 3 and
is otherwise unconstrained (pydantic puts no lower bound on it). -/
structure NegotiationCreate where
  negotiation_id : String
  call_id : String
  load_id : String
  carrier_mc_number : String
  current_offer_amount : ℚ
  current_offer_by : String
  current_offer_type : OfferType
  original_rate : ℚ
  max_rounds : Int := 3
  deriving DecidableEq

/-- The `NegotiationUpdate` pydantic payload; `none` means the field was not
set, matching `model_dump(exclude_unset=True)` (the service never explicitly
sets a field to `None`, so `Option` captures exactly the fields applied). -/
structure NegotiationUpdate where
  status : Option NegotiationStatus := none
  current_round : Option Int := none
  current_offer_amount : Option ℚ := none
  current_offer_by : Option String := none
  current_offer_type : Option OfferType := none
  final_agreed_rate : Option ℚ := none
  broker_notes : Option String := none
  carrier_feedback : Option String := none
  expires_at : Option Int := none
  deriving DecidableEq

/-- The transient `NegotiationDecision` pydantic model.  The `reasoning`
strings carry the source's fixed message text; the interpolated numeric values
are elided, as no logic reads them back. -/
structure NegotiationDecision where
  should_accept : Bool
  counter_offer_amount : Option ℚ := none
  reasoning : String
  is_final_offer : Bool := false
  deriving DecidableEq

/-- The negotiation store: the `negotiations` table, keyed by
`negotiation_id`. -/
def Store := List Negotiation

/-- Model of `NegotiationService.get_negotiation`: first row whose `negotiation_id`
matches. -/
def get_negotiation (db : List Negotiation) (negotiation_id : String) :
    Option Negotiation :=
  db.find? (fun n => n.negotiation_id == negotiation_id)

/-- Overwrite the row with the given id (SQLAlchemy mutates the fetched row in
place; ids are primary keys). -/
def setStore (db : List Negotiation) (negotiation_id : String)
    (n : Negotiation) : List Negotiation :=
  db.map (fun m => if m.negotiation_id = negotiation_id then n else m)

/-- One field of a partial update: keep the stored value unless the update set
the field. -/
def setOpt {α : Type} (upd cur : Option α) : Option α :=
  match upd with
  | some v => some v
  | none => cur

/-- The `setattr` loop of `NegotiationService.update_negotiation` plus the
`updated_at = datetime.utcnow()` bookkeeping write. -/
def applyUpdate (n : Negotiation) (u : NegotiationUpdate) (now : Int) :
    Negotiation :=
  { n with
    status := (setOpt u.status (some n.status)).getD n.status
    current_round := (setOpt u.current_round (some n.current_round)).getD n.current_round
    current_offer_amount := (setOpt u.current_offer_amount (some n.current_offer_amount)).getD n.current_offer_amount
    current_offer_by := (setOpt u.current_offer_by (some n.current_offer_by)).getD n.current_offer_by
    current_offer_type := (setOpt u.current_offer_type (some n.current_offer_type)).getD n.current_offer_type
    final_agreed_rate := setOpt u.final_agreed_rate n.final_agreed_rate
    broker_notes := setOpt u.broker_notes n.broker_notes
    carrier_feedback := setOpt u.carrier_feedback n.carrier_feedback
    expires_at := setOpt u.expires_at n.expires_at
    updated_at := now }

/-- Model of `NegotiationService.update_negotiation`: fetch, apply the set fields,
persist.  Returns the updated row (or `none` when the id is unknown) together
with the store after the commit. -/
def update_negotiation (db : List Negotiation) (negotiation_id : String)
    (u : NegotiationUpdate) (now : Int) :
    Option Negotiation × List Negotiation :=
  match get_negotiation db negotiation_id with
  | none => (none, db)
  | some n =>
    let n' := applyUpdate n u now
    (some n', setStore db negotiation_id n')

/-- Python truthiness of the optional `carrier_feedback` / `reason` string
arguments: `None` and `""` are falsy. -/
def truthy : Option String → Bool
  | none => false
  | some s => s != ""

/-- The expiry test of `make_counter_offer`:
`negotiation.expires_at and negotiation.expires_at < datetime.utcnow()`. -/
def hasExpired (n : Negotiation) (now : Int) : Bool :=
  match n.expires_at with
  | some e => decide (e < now)
  | none => false

/-- Model of `NegotiationService.make_counter_offer`. -/
def make_counter_offer (db : List Negotiation) (negotiation_id : String)
    (offer_amount : ℚ) (offer_by : String) (carrier_feedback : Option String)
    (now : Int) : Option Negotiation × List Negotiation :=
  match get_negotiation db negotiation_id with
  | none => (none, db)
  | some n =>
    if n.status ≠ NegotiationStatus.ACTIVE then (none, db)
    else if hasExpired n now then
      (none,
        (update_negotiation db negotiation_id
          { status := some NegotiationStatus.EXPIRED } now).2)
    else if n.current_round ≥ n.max_rounds then
      (none,
        (update_negotiation db negotiation_id
          { status := some NegotiationStatus.REJECTED } now).2)
    else
      update_negotiation db negotiation_id
        { current_round := some (n.current_round + 1)
          current_offer_amount := some offer_amount
          current_offer_by := some offer_by
          current_offer_type := some OfferType.COUNTER
          carrier_feedback :=
            if truthy carrier_feedback then carrier_feedback else none } now

/-- Model of `NegotiationService.accept_offer`: no status check at all. -/
def accept_offer (db : List Negotiation) (negotiation_id : String)
    (final_rate : ℚ) (now : Int) : Option Negotiation × List Negotiation :=
  update_negotiation db negotiation_id
    { status := some NegotiationStatus.ACCEPTED
      final_agreed_rate := some final_rate
      current_offer_type := some OfferType.FINAL } now

/-- Model of `NegotiationService.reject_offer`: no status check at all. -/
def reject_offer (db : List Negotiation) (negotiation_id : String)
    (reason : Option String) (now : Int) :
    Option Negotiation × List Negotiation :=
  update_negotiation db negotiation_id
    { status := some NegotiationStatus.REJECTED
      broker_notes := if truthy reason then reason else none } now

/-- Model of `NegotiationService.evaluate_carrier_offer` — pure, reads the store. -/
def evaluate_carrier_offer (db : List Negotiation) (negotiation_id : String)
    (carrier_offer : ℚ) : NegotiationDecision :=
  match get_negotiation db negotiation_id with
  | none =>
    { should_accept := false
      reasoning := "Negotiation not found"
      is_final_offer := true }
  | some n =>
    let original_rate := n.original_rate
    let current_round := n.current_round
    let max_rounds := n.max_rounds
    let min_acceptable0 := original_rate * (95 / 100 : ℚ)
    let min_acceptable :=
      if current_round ≥ max_rounds - 1 then original_rate * (90 / 100 : ℚ)
      else min_acceptable0
    if carrier_offer ≥ min_acceptable then
      { should_accept := true
        reasoning := "Offer is acceptable (within threshold)"
        is_final_offer := true }
    else if current_round ≥ max_rounds then
      { should_accept := false
        counter_offer_amount := some min_acceptable
        reasoning := "Final offer at minimum acceptable rate"
        is_final_offer := true }
    else
      let counter_offer0 := (carrier_offer + original_rate) / 2
      let counter_offer := max counter_offer0 min_acceptable
      { should_accept := false
        counter_offer_amount := some counter_offer
        reasoning := "Counter-offering"
        is_final_offer := false }

/-- Python `timedelta(hours=24)` with the clock in seconds. -/
def twentyFourHours : Int := 24 * 60 * 60

/-- Model of `NegotiationService.create_negotiation`: build the row from the payload,
with the column defaults `status=ACTIVE`, `current_round=1` and the explicit
`expires_at = now + 24h`, then insert it. -/
def create_negotiation (db : List Negotiation) (d : NegotiationCreate)
    (now : Int) : Negotiation × List Negotiation :=
  let n : Negotiation :=
    { negotiation_id := d.negotiation_id
      call_id := d.call_id
      load_id := d.load_id
      carrier_mc_number := d.carrier_mc_number
      status := NegotiationStatus.ACTIVE
      current_round := 1
      max_rounds := d.max_rounds
      current_offer_amount := d.current_offer_amount
      current_offer_by := d.current_offer_by
      current_offer_type := d.current_offer_type
      original_rate := d.original_rate
      final_agreed_rate := none
      broker_notes := none
      carrier_feedback := none
      created_at := now
      updated_at := now
      expires_at := some (now + twentyFourHours) }
  (n, db ++ [n])

/-- The `POST /negotiations/` endpoint of `app/api/negotiations.py`: reject a
duplicate identifier with 409, otherwise delegate to the service.  `none`
models the HTTP failure. -/
def api_create_negotiation (db : List Negotiation) (d : NegotiationCreate)
    (now : Int) : Option Negotiation × List Negotiation :=
  match get_negotiation db d.negotiation_id with
  | some _ => (none, db)
  | none =>
    let r := create_negotiation db d now
    (some r.1, r.2)

/-- The sweep filter of `cleanup_expired_negotiations`:
`status == ACTIVE and expires_at < utcnow()` (SQL `NULL` comparisons are
false). -/
def isExpiredActive (n : Negotiation) (now : Int) : Bool :=
  decide (n.status = NegotiationStatus.ACTIVE) && hasExpired n now

/-- The per-row transition of the cleanup sweep. -/
def expireMark (n : Negotiation) (now : Int) : Negotiation :=
  { n with status := NegotiationStatus.EXPIRED, updated_at := now }

/-- Model of `NegotiationService.cleanup_expired_negotiations`: mark every ACTIVE,
expired row EXPIRED and return how many rows were swept. -/
def cleanup_expired_negotiations (db : List Negotiation) (now : Int) :
    Nat × List Negotiation :=
  ((db.filter (fun n => isExpiredActive n now)).length,
   db.map (fun n => if isExpiredActive n now then expireMark n now else n))

/-- Does `needle` match at the head of `haystack`? -/
def leadMatch : List Char → List Char → Bool
  | [], _ => true
  | _ :: _, [] => false
  | a :: as, b :: bs => a == b && leadMatch as bs

/-- Contiguous-sublist search over characters. -/
def subSearch (needle : List Char) (haystack : List Char) : Bool :=
  match haystack with
  | [] => needle.isEmpty
  | _ :: t => leadMatch needle haystack || subSearch needle t

/-- Python's `needle in haystack` substring test. -/
def containsSub (needle haystack : String) : Bool :=
  subSearch needle.data haystack.data

/-- Python's `str.lower`, modelled on ASCII case-folding (every fixed keyword
the classifiers use is ASCII). -/
def pyLower (s : String) : String :=
  { data := s.data.map Char.toLower }

/-- Decline phrases scanned by `classify_call_outcome`. -/
def declinePhrases : List String := ["not interested", "declined", "pass"]

/-- Disconnect phrases scanned by `classify_call_outcome`. -/
def disconnectPhrases : List String := ["dropped", "hung up", "disconnected"]

/-- Model of `CallService.classify_call_outcome`. -/
def classify_call_outcome (transcript : String)
    (negotiation_successful carrier_verified loads_available : Bool) :
    CallOutcome :=
  if ¬carrier_verified then CallOutcome.FAILED_VERIFICATION
  else if ¬loads_available then CallOutcome.NO_SUITABLE_LOADS
  else if negotiation_successful then CallOutcome.SUCCESSFUL_BOOKING
  else if transcript ≠ "" then
    let t := pyLower transcript
    if declinePhrases.any (fun p => containsSub p t) then
      CallOutcome.REJECTED_BY_CARRIER
    else if containsSub "transfer" t || containsSub "sales rep" t then
      CallOutcome.TRANSFERRED_TO_SALES
    else if disconnectPhrases.any (fun p => containsSub p t) then
      CallOutcome.CALL_DROPPED
    else CallOutcome.NEGOTIATION_FAILED
  else CallOutcome.NEGOTIATION_FAILED

/-- Positive keywords of `classify_call_sentiment`. -/
def positive_words : List String :=
  ["great", "excellent", "perfect", "thank you", "appreciate", "good"]

/-- Negative keywords of `classify_call_sentiment`. -/
def negative_words : List String :=
  ["frustrated", "angry", "terrible", "awful", "ridiculous", "waste"]

/-- Frustration keywords of `classify_call_sentiment`. -/
def frustrated_words : List String :=
  ["why", "always", "never", "impossible", "difficult"]

/-- Model of `sum(1 for word in words if word in transcript_lower)`: how many keywords
of the set occur in the text. -/
def keywordCount (words : List String) (t : String) : Nat :=
  (words.filter (fun w => containsSub w t)).length

/-- Model of `CallService.classify_call_sentiment`. -/
def classify_call_sentiment (transcript : String) : CallSentiment :=
  if transcript = "" then CallSentiment.NEUTRAL
  else
    let t := pyLower transcript
    let positive_count := keywordCount positive_words t
    let negative_count := keywordCount negative_words t
    let frustrated_count := keywordCount frustrated_words t
    if negative_count > positive_count then CallSentiment.NEGATIVE
    else if frustrated_count > 2 then CallSentiment.FRUSTRATED
    else if positive_count > 0 then CallSentiment.POSITIVE
    else CallSentiment.NEUTRAL

/-- Sample ACTIVE negotiation used to instantiate the theorems. -/
def sampleNeg : Negotiation :=
  { negotiation_id := "n1", call_id := "c1", load_id := "l1",
    carrier_mc_number := "mc1", status := NegotiationStatus.ACTIVE,
    current_round := 1, max_rounds := 3, current_offer_amount := 1200,
    current_offer_by := "carrier", current_offer_type := OfferType.INITIAL,
    original_rate := 1500, final_agreed_rate := none, broker_notes := none,
    carrier_feedback := none, created_at := 0, updated_at := 0,
    expires_at := some 86400 }

theorem get_negotiation_some_id (db : List Negotiation) (id : String)
    (n : Negotiation) (h : get_negotiation db id = some n) :
    n.negotiation_id = id := by
  have := List.find?_some h
  simpa using this

theorem get_setStore_self (db : List Negotiation) (id : String)
    (n n' : Negotiation) (h : get_negotiation db id = some n)
    (hn' : n'.negotiation_id = id) :
    get_negotiation (setStore db id n') id = some n' := by
  induction db with
  | nil => simp [get_negotiation] at h
  | cons hd tl ih =>
    unfold get_negotiation at h ⊢
    unfold setStore
    by_cases hhd : hd.negotiation_id = id
    · simp only [List.map_cons, if_pos hhd]
      rw [List.find?_cons_of_pos _ (by simp [hn'])]
    · simp only [List.map_cons, if_neg hhd]
      rw [List.find?_cons_of_neg _ (by simp [hhd])]
      rw [List.find?_cons_of_neg _ (by simp [hhd])] at h
      exact ih h

theorem update_negotiation_found (db : List Negotiation) (id : String)
    (n : Negotiation) (u : NegotiationUpdate) (now : Int)
    (h : get_negotiation db id = some n) :
    update_negotiation db id u now =
      (some (applyUpdate n u now), setStore db id (applyUpdate n u now)) := by
  unfold update_negotiation
  rw [h]

/-- C1: `make_counter_offer` succeeds only on an existing ACTIVE negotiation
and performs its checks in order: expiry first (transitioning to EXPIRED and
failing), then the round limit (transitioning to REJECTED and failing);
otherwise it increments `current_round` by exactly 1, stores the new offer
amount, actor and `COUNTER` type, stores the feedback if provided, and returns
the updated negotiation. -/
theorem counter_offer_checks_in_order (db : List Negotiation) (id : String)
    (amt : ℚ) (ob : String) (fb : Option String) (now : Int) :
    (get_negotiation db id = none →
        make_counter_offer db id amt ob fb now = (none, db)) ∧
    ∀ n, get_negotiation db id = some n →
      (n.status ≠ NegotiationStatus.ACTIVE →
          make_counter_offer db id amt ob fb now = (none, db)) ∧
      (n.status = NegotiationStatus.ACTIVE → hasExpired n now = true →
          (make_counter_offer db id amt ob fb now).1 = none ∧
          get_negotiation (make_counter_offer db id amt ob fb now).2 id =
            some { n with status := NegotiationStatus.EXPIRED,
                          updated_at := now }) ∧
      (n.status = NegotiationStatus.ACTIVE → hasExpired n now = false →
          n.current_round ≥ n.max_rounds →
          (make_counter_offer db id amt ob fb now).1 = none ∧
          get_negotiation (make_counter_offer db id amt ob fb now).2 id =
            some { n with status := NegotiationStatus.REJECTED,
                          updated_at := now }) ∧
      (n.status = NegotiationStatus.ACTIVE → hasExpired n now = false →
          n.current_round < n.max_rounds →
          ∃ n', make_counter_offer db id amt ob fb now =
                  (some n', setStore db id n') ∧
            get_negotiation (make_counter_offer db id amt ob fb now).2 id =
              some n' ∧
            n'.current_round = n.current_round + 1 ∧
            n'.current_offer_amount = amt ∧
            n'.current_offer_by = ob ∧
            n'.current_offer_type = OfferType.COUNTER ∧
            n'.status = NegotiationStatus.ACTIVE ∧
            (truthy fb = true → n'.carrier_feedback = fb)) := by
  constructor
  · intro h
    unfold make_counter_offer
    rw [h]
  · intro n hget
    have hid : n.negotiation_id = id := get_negotiation_some_id db id n hget
    refine ⟨fun hne => ?_, fun hact hexp => ?_, fun hact hexp hge => ?_,
      fun hact hexp hlt => ?_⟩
    · unfold make_counter_offer
      rw [hget]
      simp [hne]
    · have hcal : make_counter_offer db id amt ob fb now =
          (none, (update_negotiation db id
            { status := some NegotiationStatus.EXPIRED } now).2) := by
        unfold make_counter_offer
        rw [hget]
        simp [hact, hexp]
      rw [hcal,
        update_negotiation_found db id n
          { status := some NegotiationStatus.EXPIRED } now hget]
      refine ⟨rfl, ?_⟩
      exact get_setStore_self db id n _ hget hid
    · have hcal : make_counter_offer db id amt ob fb now =
          (none, (update_negotiation db id
            { status := some NegotiationStatus.REJECTED } now).2) := by
        unfold make_counter_offer
        rw [hget]
        simp [hact, hexp, hge]
      rw [hcal,
        update_negotiation_found db id n
          { status := some NegotiationStatus.REJECTED } now hget]
      refine ⟨rfl, ?_⟩
      exact get_setStore_self db id n _ hget hid
    · have hcal : make_counter_offer db id amt ob fb now =
          update_negotiation db id
            { current_round := some (n.current_round + 1)
              current_offer_amount := some amt
              current_offer_by := some ob
              current_offer_type := some OfferType.COUNTER
              carrier_feedback :=
                if truthy fb then fb else none } now := by
        unfold make_counter_offer
        rw [hget]
        simp [hact, hexp, not_le.mpr hlt]
      refine ⟨applyUpdate n
        { current_round := some (n.current_round + 1)
          current_offer_amount := some amt
          current_offer_by := some ob
          current_offer_type := some OfferType.COUNTER
          carrier_feedback := if truthy fb then fb else none } now,
        ?_, ?_, rfl, rfl, rfl, rfl, hact ▸ rfl, ?_⟩
      · rw [hcal, update_negotiation_found db id n _ now hget]
      · rw [hcal, update_negotiation_found db id n _ now hget]
        exact get_setStore_self db id n _ hget hid
      · intro htf
        show setOpt (if truthy fb then fb else none) n.carrier_feedback = fb
        rw [if_pos htf]
        cases fb with
        | none => simp [truthy] at htf
        | some s => rfl

/-- Witness for C1 at a concrete store and offer. -/
theorem counter_offer_checks_in_order_witness :
    ∃ n', make_counter_offer [sampleNeg] "n1" 1300 "carrier" (some "ok") 100 =
            (some n', setStore [sampleNeg] "n1" n') ∧
      get_negotiation
        (make_counter_offer [sampleNeg] "n1" 1300 "carrier" (some "ok") 100).2
        "n1" = some n' ∧
      n'.current_round = sampleNeg.current_round + 1 ∧
      n'.current_offer_amount = 1300 ∧
      n'.current_offer_by = "carrier" ∧
      n'.current_offer_type = OfferType.COUNTER ∧
      n'.status = NegotiationStatus.ACTIVE ∧
      (truthy (some "ok") = true → n'.carrier_feedback = some "ok") :=
  (((counter_offer_checks_in_order [sampleNeg] "n1" 1300 "carrier"
      (some "ok") 100).2 sampleNeg rfl).2.2.2) rfl rfl (by decide)

/-- C10: a successful counter-offer touches only the offer fields, the
feedback and the bookkeeping timestamp; identity, status, rates, round limit,
expiry, final rate and broker notes are unchanged, and the stored feedback is
also unchanged when the argument is absent or empty. -/
theorem counter_offer_frame (db : List Negotiation) (id : String) (amt : ℚ)
    (ob : String) (fb : Option String) (now : Int) (n : Negotiation)
    (hget : get_negotiation db id = some n)
    (hact : n.status = NegotiationStatus.ACTIVE)
    (hexp : hasExpired n now = false)
    (hlt : n.current_round < n.max_rounds) :
    ∃ n', (make_counter_offer db id amt ob fb now).1 = some n' ∧
      n'.status = n.status ∧
      n'.original_rate = n.original_rate ∧
      n'.max_rounds = n.max_rounds ∧
      n'.expires_at = n.expires_at ∧
      n'.final_agreed_rate = n.final_agreed_rate ∧
      n'.broker_notes = n.broker_notes ∧
      n'.negotiation_id = n.negotiation_id ∧
      n'.call_id = n.call_id ∧
      n'.load_id = n.load_id ∧
      n'.carrier_mc_number = n.carrier_mc_number ∧
      n'.created_at = n.created_at ∧
      n'.updated_at = now ∧
      (fb = none ∨ fb = some "" → n'.carrier_feedback = n.carrier_feedback) := by
  have hcal : make_counter_offer db id amt ob fb now =
      update_negotiation db id
        { current_round := some (n.current_round + 1)
          current_offer_amount := some amt
          current_offer_by := some ob
          current_offer_type := some OfferType.COUNTER
          carrier_feedback := if truthy fb then fb else none } now := by
    unfold make_counter_offer
    rw [hget]
    simp [hact, hexp, not_le.mpr hlt]
  refine ⟨applyUpdate n
      { current_round := some (n.current_round + 1)
        current_offer_amount := some amt
        current_offer_by := some ob
        current_offer_type := some OfferType.COUNTER
        carrier_feedback := if truthy fb then fb else none } now,
    ?_, rfl, rfl, rfl, rfl, rfl, rfl, rfl, rfl, rfl, rfl, rfl, rfl, ?_⟩
  · rw [hcal, update_negotiation_found db id n _ now hget]
  · intro hfb
    show setOpt (if truthy fb then fb else none) n.carrier_feedback =
      n.carrier_feedback
    rcases hfb with rfl | rfl
    · rfl
    · rfl

/-- Witness for C10 with an empty feedback argument. -/
theorem counter_offer_frame_witness :
    ∃ n', (make_counter_offer [sampleNeg] "n1" 1300 "carrier" (some "") 100).1 =
        some n' ∧
      n'.status = sampleNeg.status ∧
      n'.original_rate = sampleNeg.original_rate ∧
      n'.max_rounds = sampleNeg.max_rounds ∧
      n'.expires_at = sampleNeg.expires_at ∧
      n'.final_agreed_rate = sampleNeg.final_agreed_rate ∧
      n'.broker_notes = sampleNeg.broker_notes ∧
      n'.negotiation_id = sampleNeg.negotiation_id ∧
      n'.call_id = sampleNeg.call_id ∧
      n'.load_id = sampleNeg.load_id ∧
      n'.carrier_mc_number = sampleNeg.carrier_mc_number ∧
      n'.created_at = sampleNeg.created_at ∧
      n'.updated_at = 100 ∧
      (some "" = none ∨ (some "" : Option String) = some "" →
        n'.carrier_feedback = sampleNeg.carrier_feedback) :=
  counter_offer_frame [sampleNeg] "n1" 1300 "carrier" (some "") 100 sampleNeg
    rfl rfl rfl (by decide)

/-- The acceptance threshold computed by `evaluate_carrier_offer`:
`original_rate × 0.95`, relaxed to `original_rate × 0.90` in the last allowed
round. -/
def minAcceptable (n : Negotiation) : ℚ :=
  if n.current_round ≥ n.max_rounds - 1 then n.original_rate * (90 / 100 : ℚ)
  else n.original_rate * (95 / 100 : ℚ)

/-- Computation shape of `evaluate_carrier_offer` on an existing
negotiation. -/
theorem evaluate_eq (db : List Negotiation) (id : String) (c : ℚ)
    (n : Negotiation) (hget : get_negotiation db id = some n) :
    evaluate_carrier_offer db id c =
      if minAcceptable n ≤ c then
        { should_accept := true
          reasoning := "Offer is acceptable (within threshold)"
          is_final_offer := true }
      else if n.current_round ≥ n.max_rounds then
        { should_accept := false
          counter_offer_amount := some (minAcceptable n)
          reasoning := "Final offer at minimum acceptable rate"
          is_final_offer := true }
      else
        { should_accept := false
          counter_offer_amount :=
            some (max ((c + n.original_rate) / 2) (minAcceptable n))
          reasoning := "Counter-offering"
          is_final_offer := false } := by
  unfold evaluate_carrier_offer minAcceptable
  rw [hget]

/-- C4: for an existing negotiation, `evaluate_carrier_offer` accepts —
returning `should_accept=true` together with `is_final_offer=true` — exactly
when the carrier's offer reaches the threshold `original_rate × 0.95`, relaxed
to `original_rate × 0.90` once `current_round ≥ max_rounds - 1`. -/
theorem evaluate_accept_iff (db : List Negotiation) (id : String) (c : ℚ)
    (n : Negotiation) (hget : get_negotiation db id = some n) :
    ((evaluate_carrier_offer db id c).should_accept = true ∧
      (evaluate_carrier_offer db id c).is_final_offer = true) ↔
    minAcceptable n ≤ c := by
  rw [evaluate_eq db id c n hget]
  by_cases hacc : minAcceptable n ≤ c
  · rw [if_pos hacc]
    simp [hacc]
  · rw [if_neg hacc]
    by_cases hmax : n.current_round ≥ n.max_rounds
    · rw [if_pos hmax]
      simp [hacc]
    · rw [if_neg hmax]
      simp [hacc]

/-- Witness for C4: the spec scenario — offer 1450 in round 1 of 3 against an
original rate of 1500 reaches the 1425 threshold. -/
theorem evaluate_accept_iff_witness :
    ((evaluate_carrier_offer [sampleNeg] "n1" 1450).should_accept = true ∧
      (evaluate_carrier_offer [sampleNeg] "n1" 1450).is_final_offer = true) ↔
    minAcceptable sampleNeg ≤ 1450 :=
  evaluate_accept_iff [sampleNeg] "n1" 1450 sampleNeg rfl

/-- C5: for an existing negotiation and an offer below the threshold,
`evaluate_carrier_offer` declines and counters, never below the threshold:
at or past the round limit the counter is exactly the threshold and final;
otherwise it is the midpoint of the offer and the original rate, floored at
the threshold, and not final. -/
theorem evaluate_counter_floor (db : List Negotiation) (id : String) (c : ℚ)
    (n : Negotiation) (hget : get_negotiation db id = some n)
    (hlow : c < minAcceptable n) :
    ∃ co, (evaluate_carrier_offer db id c).counter_offer_amount = some co ∧
      minAcceptable n ≤ co ∧
      (evaluate_carrier_offer db id c).should_accept = false ∧
      (n.current_round ≥ n.max_rounds →
        co = minAcceptable n ∧
        (evaluate_carrier_offer db id c).is_final_offer = true) ∧
      (n.current_round < n.max_rounds →
        co = max ((c + n.original_rate) / 2) (minAcceptable n) ∧
        (evaluate_carrier_offer db id c).is_final_offer = false) := by
  have hacc : ¬ minAcceptable n ≤ c := not_le.mpr hlow
  rw [evaluate_eq db id c n hget, if_neg hacc]
  by_cases hmax : n.current_round ≥ n.max_rounds
  · rw [if_pos hmax]
    exact ⟨minAcceptable n, rfl, le_refl _, rfl, fun _ => ⟨rfl, rfl⟩,
      fun hcon => absurd hmax (not_le.mpr hcon)⟩
  · rw [if_neg hmax]
    exact ⟨max ((c + n.original_rate) / 2) (minAcceptable n), rfl,
      le_max_right _ _, rfl, fun hcon => absurd hcon hmax,
      fun _ => ⟨rfl, rfl⟩⟩

/-- Witness for C5: the spec scenario — offer 1200 in round 1 of 3 against an
original rate of 1500 is countered at the 1425 floor, not final. -/
theorem evaluate_counter_floor_witness :
    ∃ co, (evaluate_carrier_offer [sampleNeg] "n1" 1200).counter_offer_amount =
        some co ∧
      minAcceptable sampleNeg ≤ co ∧
      (evaluate_carrier_offer [sampleNeg] "n1" 1200).should_accept = false ∧
      (sampleNeg.current_round ≥ sampleNeg.max_rounds →
        co = minAcceptable sampleNeg ∧
        (evaluate_carrier_offer [sampleNeg] "n1" 1200).is_final_offer = true) ∧
      (sampleNeg.current_round < sampleNeg.max_rounds →
        co = max ((1200 + sampleNeg.original_rate) / 2)
            (minAcceptable sampleNeg) ∧
        (evaluate_carrier_offer [sampleNeg] "n1" 1200).is_final_offer =
          false) :=
  evaluate_counter_floor [sampleNeg] "n1" 1200 sampleNeg rfl
    (by norm_num [minAcceptable, sampleNeg])

/-- A creation payload that supplies `current_offer_type = COUNTER`. -/
def counterTypeCreate : NegotiationCreate :=
  { negotiation_id := "n2", call_id := "c2", load_id := "l2",
    carrier_mc_number := "mc2", current_offer_amount := 100,
    current_offer_by := "broker", current_offer_type := OfferType.COUNTER,
    original_rate := 100 }

/-- C6 counterexample: the create endpoint copies `current_offer_type` from
the request payload, so a creation carrying `COUNTER` yields a new negotiation
whose offer type is not `INITIAL`. -/
theorem create_offer_type_counterexample :
    ((api_create_negotiation [] counterTypeCreate 0).1.map
        (fun n => n.current_offer_type)) = some OfferType.COUNTER ∧
    ¬ ((api_create_negotiation [] counterTypeCreate 0).1.map
        (fun n => n.current_offer_type)) = some OfferType.INITIAL := by
  constructor
  · rfl
  · decide

/-- C6 (amended): a create call on a fresh identifier returns a new
negotiation with `status=ACTIVE`, `current_round=1`,
`expires_at = now + 24h`, and `current_offer_type` (like `max_rounds`) taken
from the creation payload; on an existing identifier it fails and leaves the
store unchanged. -/
theorem create_negotiation_spec (db : List Negotiation)
    (d : NegotiationCreate) (now : Int) :
    (get_negotiation db d.negotiation_id = none →
      ∃ n, api_create_negotiation db d now = (some n, db ++ [n]) ∧
        n.status = NegotiationStatus.ACTIVE ∧
        n.current_round = 1 ∧
        n.current_offer_type = d.current_offer_type ∧
        n.max_rounds = d.max_rounds ∧
        n.original_rate = d.original_rate ∧
        n.current_offer_amount = d.current_offer_amount ∧
        n.negotiation_id = d.negotiation_id ∧
        n.expires_at = some (now + twentyFourHours)) ∧
    (∀ n0, get_negotiation db d.negotiation_id = some n0 →
      api_create_negotiation db d now = (none, db)) := by
  constructor
  · intro h
    unfold api_create_negotiation
    rw [h]
    exact ⟨_, rfl, rfl, rfl, rfl, rfl, rfl, rfl, rfl, rfl⟩
  · intro n0 h
    unfold api_create_negotiation
    rw [h]

/-- Witness for C6 on an empty store. -/
theorem create_negotiation_spec_witness :
    ∃ n, api_create_negotiation [] counterTypeCreate 5 = (some n, [] ++ [n]) ∧
      n.status = NegotiationStatus.ACTIVE ∧
      n.current_round = 1 ∧
      n.current_offer_type = counterTypeCreate.current_offer_type ∧
      n.max_rounds = counterTypeCreate.max_rounds ∧
      n.original_rate = counterTypeCreate.original_rate ∧
      n.current_offer_amount = counterTypeCreate.current_offer_amount ∧
      n.negotiation_id = counterTypeCreate.negotiation_id ∧
      n.expires_at = some (5 + twentyFourHours) :=
  (create_negotiation_spec [] counterTypeCreate 5).1 rfl

/-- C3 counterexample: `accept_offer` has no status guard — on a store whose
only negotiation is REJECTED (a terminal state) it succeeds and rewrites the
stored status to ACCEPTED along with the final rate and offer type. -/
theorem terminal_accept_counterexample :
    ((accept_offer [{ sampleNeg with status := NegotiationStatus.REJECTED }]
        "n1" 1400 5).1).isSome = true ∧
    ((accept_offer [{ sampleNeg with status := NegotiationStatus.REJECTED }]
        "n1" 1400 5).1.map (fun n => n.status)) =
      some NegotiationStatus.ACCEPTED ∧
    ((get_negotiation
        (accept_offer [{ sampleNeg with status := NegotiationStatus.REJECTED }]
          "n1" 1400 5).2 "n1").map (fun n => n.status)) =
      some NegotiationStatus.ACCEPTED := by
  refine ⟨rfl, rfl, ?_⟩
  decide

/-- C3 (amended): on a negotiation in a terminal (non-ACTIVE) state,
`make_counter_offer` always fails and leaves the store unchanged, but
`accept_offer` and `reject_offer` are unguarded: they succeed on any existing
negotiation regardless of its status, setting ACCEPTED (with the final rate
and FINAL offer type) respectively REJECTED. -/
theorem terminal_state_spec (db : List Negotiation) (id : String)
    (n : Negotiation) (amt r : ℚ) (ob : String) (fb reason : Option String)
    (now : Int) (hget : get_negotiation db id = some n)
    (hterm : n.status ≠ NegotiationStatus.ACTIVE) :
    make_counter_offer db id amt ob fb now = (none, db) ∧
    (∃ na, (accept_offer db id r now).1 = some na ∧
      na.status = NegotiationStatus.ACCEPTED ∧
      na.final_agreed_rate = some r ∧
      na.current_offer_type = OfferType.FINAL) ∧
    (∃ nr, (reject_offer db id reason now).1 = some nr ∧
      nr.status = NegotiationStatus.REJECTED) := by
  refine ⟨?_, ?_, ?_⟩
  · unfold make_counter_offer
    rw [hget]
    simp [hterm]
  · unfold accept_offer
    rw [update_negotiation_found db id n _ now hget]
    exact ⟨_, rfl, rfl, rfl, rfl⟩
  · unfold reject_offer
    rw [update_negotiation_found db id n _ now hget]
    exact ⟨_, rfl, rfl⟩

/-- Witness for C3 on a REJECTED negotiation. -/
theorem terminal_state_spec_witness :
    make_counter_offer [{ sampleNeg with status := NegotiationStatus.REJECTED }]
        "n1" 1300 "carrier" none 5 =
      (none, [{ sampleNeg with status := NegotiationStatus.REJECTED }]) ∧
    (∃ na, (accept_offer
          [{ sampleNeg with status := NegotiationStatus.REJECTED }]
          "n1" 1400 5).1 = some na ∧
      na.status = NegotiationStatus.ACCEPTED ∧
      na.final_agreed_rate = some 1400 ∧
      na.current_offer_type = OfferType.FINAL) ∧
    (∃ nr, (reject_offer
          [{ sampleNeg with status := NegotiationStatus.REJECTED }]
          "n1" (some "no") 5).1 = some nr ∧
      nr.status = NegotiationStatus.REJECTED) :=
  terminal_state_spec [{ sampleNeg with status := NegotiationStatus.REJECTED }]
    "n1" { sampleNeg with status := NegotiationStatus.REJECTED } 1300 1400
    "carrier" none (some "no") 5 rfl (by decide)

theorem isExpiredActive_decide (n : Negotiation) (now : Int) :
    isExpiredActive n now =
      decide (n.status = NegotiationStatus.ACTIVE ∧ hasExpired n now = true) := by
  unfold isExpiredActive
  by_cases hs : n.status = NegotiationStatus.ACTIVE <;>
    by_cases he : hasExpired n now = true <;> simp [hs, he]

theorem cleanup_step_not_expiredActive (n : Negotiation) (now : Int) :
    isExpiredActive (if isExpiredActive n now then expireMark n now else n)
      now = false := by
  by_cases h : isExpiredActive n now = true
  · rw [if_pos h]
    unfold isExpiredActive expireMark
    simp
  · rw [if_neg h]
    simpa using h

theorem cleanup_member_not_expiredActive (db : List Negotiation) (now : Int) :
    ∀ n' ∈ (cleanup_expired_negotiations db now).2,
      isExpiredActive n' now = false := by
  intro n' hmem
  unfold cleanup_expired_negotiations at hmem
  obtain ⟨m, _, rfl⟩ := List.mem_map.1 hmem
  exact cleanup_step_not_expiredActive m now

/-- C7: the cleanup sweep returns the number of ACTIVE, expired negotiations;
it transitions exactly those (to EXPIRED, with the bookkeeping timestamp) and
leaves every other negotiation untouched; and it is idempotent — run again on
its own output it returns 0 and changes nothing. -/
theorem cleanup_expired_spec (db : List Negotiation) (now : Int) :
    (cleanup_expired_negotiations db now).1 =
      db.countP (fun n => decide (n.status = NegotiationStatus.ACTIVE ∧
        hasExpired n now = true)) ∧
    (cleanup_expired_negotiations db now).2.length = db.length ∧
    (∀ i (hi : i < db.length)
        (hi2 : i < (cleanup_expired_negotiations db now).2.length),
      ((db.get ⟨i, hi⟩).status = NegotiationStatus.ACTIVE ∧
          hasExpired (db.get ⟨i, hi⟩) now = true →
        (cleanup_expired_negotiations db now).2.get ⟨i, hi2⟩ =
          { db.get ⟨i, hi⟩ with status := NegotiationStatus.EXPIRED,
                                updated_at := now }) ∧
      (¬ ((db.get ⟨i, hi⟩).status = NegotiationStatus.ACTIVE ∧
          hasExpired (db.get ⟨i, hi⟩) now = true) →
        (cleanup_expired_negotiations db now).2.get ⟨i, hi2⟩ =
          db.get ⟨i, hi⟩)) ∧
    cleanup_expired_negotiations (cleanup_expired_negotiations db now).2 now =
      (0, (cleanup_expired_negotiations db now).2) := by
  refine ⟨?_, ?_, ?_, ?_⟩
  · show (db.filter (fun n => isExpiredActive n now)).length = _
    rw [← List.countP_eq_length_filter]
    have : (fun n => isExpiredActive n now) =
        (fun n => decide (n.status = NegotiationStatus.ACTIVE ∧
          hasExpired n now = true)) := funext (fun n => isExpiredActive_decide n now)
    rw [this]
  · show (db.map _).length = db.length
    exact List.length_map db _
  · intro i hi hi2
    have hmap : (cleanup_expired_negotiations db now).2.get ⟨i, hi2⟩ =
        (if isExpiredActive (db.get ⟨i, hi⟩) now
          then expireMark (db.get ⟨i, hi⟩) now else db.get ⟨i, hi⟩) := by
      show (db.map _).get _ = _
      simp
    constructor
    · intro hP
      rw [hmap, if_pos (by rw [isExpiredActive_decide]; exact decide_eq_true hP)]
      rfl
    · intro hP
      rw [hmap, if_neg ?_]
      rw [isExpiredActive_decide]
      simpa using hP
  · have hfilter : (cleanup_expired_negotiations db now).2.filter
        (fun n => isExpiredActive n now) = [] :=
      List.filter_eq_nil_iff.mpr (fun a ha => by
        simp [cleanup_member_not_expiredActive db now a ha])
    have hmapid : (cleanup_expired_negotiations db now).2.map
        (fun n => if isExpiredActive n now then expireMark n now else n) =
        (cleanup_expired_negotiations db now).2 := by
      have h := List.map_congr_left
        (l := (cleanup_expired_negotiations db now).2)
        (f := fun n => if isExpiredActive n now then expireMark n now else n)
        (g := id) (fun a ha => by
          simp [cleanup_member_not_expiredActive db now a ha])
      rw [h, List.map_id]
    show (((cleanup_expired_negotiations db now).2.filter
          (fun n => isExpiredActive n now)).length,
        (cleanup_expired_negotiations db now).2.map
          (fun n => if isExpiredActive n now then expireMark n now else n)) =
      (0, (cleanup_expired_negotiations db now).2)
    rw [hfilter, hmapid]
    rfl

/-- Witness for C7: a two-row store, one fresh and one expired. -/
theorem cleanup_expired_spec_witness :
    cleanup_expired_negotiations
        (cleanup_expired_negotiations
          [sampleNeg, { sampleNeg with negotiation_id := "n2",
                                       expires_at := some 10 }] 100).2 100 =
      (0, (cleanup_expired_negotiations
          [sampleNeg, { sampleNeg with negotiation_id := "n2",
                                       expires_at := some 10 }] 100).2) :=
  (cleanup_expired_spec
    [sampleNeg, { sampleNeg with negotiation_id := "n2",
                                 expires_at := some 10 }] 100).2.2.2

/-- The round-limit invariant of the data model: an ACTIVE negotiation's
`current_round` never exceeds its `max_rounds`. -/
def roundInv (db : List Negotiation) : Prop :=
  ∀ n ∈ db, n.status = NegotiationStatus.ACTIVE →
    n.current_round ≤ n.max_rounds

theorem mem_setStore (db : List Negotiation) (id : String) (n' m : Negotiation)
    (h : m ∈ setStore db id n') : m = n' ∨ m ∈ db := by
  unfold setStore at h
  obtain ⟨x, hx, rfl⟩ := List.mem_map.1 h
  by_cases hc : x.negotiation_id = id
  · rw [if_pos hc]
    exact Or.inl rfl
  · rw [if_neg hc]
    exact Or.inr hx

theorem roundInv_update (db : List Negotiation) (id : String)
    (u : NegotiationUpdate) (now : Int) (hdb : roundInv db)
    (hok : ∀ n, get_negotiation db id = some n →
      (applyUpdate n u now).status = NegotiationStatus.ACTIVE →
      (applyUpdate n u now).current_round ≤ (applyUpdate n u now).max_rounds) :
    roundInv (update_negotiation db id u now).2 := by
  unfold update_negotiation
  cases hget : get_negotiation db id with
  | none => exact hdb
  | some n =>
    intro m hm hact
    rcases mem_setStore db id (applyUpdate n u now) m hm with rfl | hmem
    · exact hok n hget hact
    · exact hdb m hmem hact

theorem roundInv_counter (db : List Negotiation) (id : String) (amt : ℚ)
    (ob : String) (fb : Option String) (now : Int) (hdb : roundInv db) :
    roundInv (make_counter_offer db id amt ob fb now).2 := by
  unfold make_counter_offer
  cases hget : get_negotiation db id with
  | none => exact hdb
  | some n =>
    dsimp only
    by_cases hact : n.status = NegotiationStatus.ACTIVE
    · rw [if_neg (not_not_intro hact)]
      by_cases hexp : hasExpired n now = true
      · rw [if_pos hexp]
        apply roundInv_update db id _ now hdb
        intro n0 _ hst
        simp [applyUpdate, setOpt] at hst
      · rw [if_neg hexp]
        by_cases hge : n.current_round ≥ n.max_rounds
        · rw [if_pos hge]
          apply roundInv_update db id _ now hdb
          intro n0 _ hst
          simp [applyUpdate, setOpt] at hst
        · rw [if_neg hge]
          apply roundInv_update db id _ now hdb
          intro n0 hget0 _
          have hn0 : n0 = n := by
            rw [hget] at hget0
            exact (Option.some.inj hget0).symm
          subst hn0
          show n0.current_round + 1 ≤ n0.max_rounds
          omega
    · rw [if_pos hact]
      exact hdb

theorem roundInv_accept (db : List Negotiation) (id : String) (r : ℚ)
    (now : Int) (hdb : roundInv db) :
    roundInv (accept_offer db id r now).2 := by
  unfold accept_offer
  apply roundInv_update db id _ now hdb
  intro n0 _ hst
  simp [applyUpdate, setOpt] at hst

theorem roundInv_reject (db : List Negotiation) (id : String)
    (reason : Option String) (now : Int) (hdb : roundInv db) :
    roundInv (reject_offer db id reason now).2 := by
  unfold reject_offer
  apply roundInv_update db id _ now hdb
  intro n0 _ hst
  simp [applyUpdate, setOpt] at hst

theorem roundInv_create (db : List Negotiation) (d : NegotiationCreate)
    (now : Int) (hmr : 1 ≤ d.max_rounds) (hdb : roundInv db) :
    roundInv (api_create_negotiation db d now).2 := by
  unfold api_create_negotiation
  cases hget : get_negotiation db d.negotiation_id with
  | some n => exact hdb
  | none =>
    unfold create_negotiation
    intro m hm _
    rcases List.mem_append.1 hm with hmem | hmem
    · exact hdb m hmem (by assumption)
    · rw [List.mem_singleton.1 hmem]
      exact hmr

theorem roundInv_cleanup (db : List Negotiation) (now : Int)
    (hdb : roundInv db) :
    roundInv (cleanup_expired_negotiations db now).2 := by
  intro m hm hact
  unfold cleanup_expired_negotiations at hm
  obtain ⟨x, hx, rfl⟩ := List.mem_map.1 hm
  by_cases hc : isExpiredActive x now = true
  · rw [if_pos hc] at hact
    exact absurd hact (by simp [expireMark])
  · rw [if_neg hc] at hact ⊢
    exact hdb x hx hact

/-- Stores reachable through the Lifecycle Manager's operations, starting
from an empty store; creations are constrained to the data model's
`max_rounds ≥ 1` (the pydantic payload itself does not enforce it, see the
counterexample). -/
inductive Reachable : List Negotiation → Prop where
  | init : Reachable []
  | create (db : List Negotiation) (d : NegotiationCreate) (now : Int) :
      Reachable db → 1 ≤ d.max_rounds →
      Reachable (api_create_negotiation db d now).2
  | counter (db : List Negotiation) (id : String) (amt : ℚ) (ob : String)
      (fb : Option String) (now : Int) :
      Reachable db → Reachable (make_counter_offer db id amt ob fb now).2
  | accept (db : List Negotiation) (id : String) (r : ℚ) (now : Int) :
      Reachable db → Reachable (accept_offer db id r now).2
  | reject (db : List Negotiation) (id : String) (reason : Option String)
      (now : Int) :
      Reachable db → Reachable (reject_offer db id reason now).2
  | cleanup (db : List Negotiation) (now : Int) :
      Reachable db → Reachable (cleanup_expired_negotiations db now).2

/-- A creation payload with `max_rounds = 0`, accepted by the pydantic
model. -/
def zeroRoundsCreate : NegotiationCreate :=
  { negotiation_id := "z1", call_id := "cz", load_id := "lz",
    carrier_mc_number := "mz", current_offer_amount := 100,
    current_offer_by := "broker", current_offer_type := OfferType.INITIAL,
    original_rate := 100, max_rounds := 0 }

/-- C2 counterexample: `Create` does not validate `max_rounds`, so creating
with `max_rounds = 0` (allowed by the payload model) immediately yields an
ACTIVE negotiation whose `current_round` (1) exceeds its `max_rounds` (0). -/
theorem round_invariant_counterexample :
    ((api_create_negotiation [] zeroRoundsCreate 0).1.map
        (fun n => n.status)) = some NegotiationStatus.ACTIVE ∧
    ((api_create_negotiation [] zeroRoundsCreate 0).1.map
        (fun n => decide (n.current_round ≤ n.max_rounds))) = some false ∧
    ((api_create_negotiation [] zeroRoundsCreate 0).2.map
        (fun n => decide (n.current_round ≤ n.max_rounds))) = [false] := by
  refine ⟨rfl, ?_, ?_⟩ <;> decide

/-- C2 (amended): on every store reachable through the Lifecycle Manager's
operations in which each creation supplies `max_rounds ≥ 1` (as the data
model requires), `current_round` never exceeds `max_rounds` while the status
is ACTIVE; and each of the five operations preserves this invariant. -/
theorem round_invariant :
    (∀ db, Reachable db → roundInv db) ∧
    (∀ db d now, 1 ≤ NegotiationCreate.max_rounds d → roundInv db →
      roundInv (api_create_negotiation db d now).2) ∧
    (∀ db id amt ob fb now, roundInv db →
      roundInv (make_counter_offer db id amt ob fb now).2) ∧
    (∀ db id r now, roundInv db → roundInv (accept_offer db id r now).2) ∧
    (∀ db id reason now, roundInv db →
      roundInv (reject_offer db id reason now).2) ∧
    (∀ db now, roundInv db →
      roundInv (cleanup_expired_negotiations db now).2) := by
  refine ⟨?_, roundInv_create, roundInv_counter, roundInv_accept,
    roundInv_reject, roundInv_cleanup⟩
  intro db h
  induction h with
  | init => intro m hm _; exact absurd hm (List.not_mem_nil m)
  | create db d now _ hmr ih => exact roundInv_create db d now hmr ih
  | counter db id amt ob fb now _ ih =>
    exact roundInv_counter db id amt ob fb now ih
  | accept db id r now _ ih => exact roundInv_accept db id r now ih
  | reject db id reason now _ ih => exact roundInv_reject db id reason now ih
  | cleanup db now _ ih => exact roundInv_cleanup db now ih

/-- A default creation payload (`max_rounds = 3`). -/
def defaultCreate : NegotiationCreate :=
  { negotiation_id := "n9", call_id := "c9", load_id := "l9",
    carrier_mc_number := "m9", current_offer_amount := 1200,
    current_offer_by := "carrier", current_offer_type := OfferType.INITIAL,
    original_rate := 1500 }

/-- Witness for C2 on the store produced by one default creation. -/
theorem round_invariant_witness :
    (create_negotiation [] defaultCreate 0).1.current_round ≤
      (create_negotiation [] defaultCreate 0).1.max_rounds :=
  round_invariant.1 (api_create_negotiation [] defaultCreate 0).2
    (Reachable.create [] defaultCreate 0 Reachable.init (by decide))
    (create_negotiation [] defaultCreate 0).1
    (by simp [api_create_negotiation, create_negotiation, get_negotiation])
    rfl

/-- C8: `classify_call_outcome` is total and applies its rules in priority
order — unverified carrier, then no loads, then successful negotiation, then
the case-insensitive transcript scans for decline, transfer and disconnect
phrases, and finally the `negotiation_failed` default. -/
theorem classify_outcome_priority (t : String) (ns cv la : Bool) :
    (cv = false → classify_call_outcome t ns cv la =
      CallOutcome.FAILED_VERIFICATION) ∧
    (cv = true → la = false → classify_call_outcome t ns cv la =
      CallOutcome.NO_SUITABLE_LOADS) ∧
    (cv = true → la = true → ns = true → classify_call_outcome t ns cv la =
      CallOutcome.SUCCESSFUL_BOOKING) ∧
    (cv = true → la = true → ns = false →
      declinePhrases.any (fun p => containsSub p (pyLower t)) = true →
      classify_call_outcome t ns cv la = CallOutcome.REJECTED_BY_CARRIER) ∧
    (cv = true → la = true → ns = false →
      declinePhrases.any (fun p => containsSub p (pyLower t)) = false →
      (containsSub "transfer" (pyLower t) ||
        containsSub "sales rep" (pyLower t)) = true →
      classify_call_outcome t ns cv la = CallOutcome.TRANSFERRED_TO_SALES) ∧
    (cv = true → la = true → ns = false →
      declinePhrases.any (fun p => containsSub p (pyLower t)) = false →
      (containsSub "transfer" (pyLower t) ||
        containsSub "sales rep" (pyLower t)) = false →
      disconnectPhrases.any (fun p => containsSub p (pyLower t)) = true →
      classify_call_outcome t ns cv la = CallOutcome.CALL_DROPPED) ∧
    (cv = true → la = true → ns = false →
      declinePhrases.any (fun p => containsSub p (pyLower t)) = false →
      (containsSub "transfer" (pyLower t) ||
        containsSub "sales rep" (pyLower t)) = false →
      disconnectPhrases.any (fun p => containsSub p (pyLower t)) = false →
      classify_call_outcome t ns cv la = CallOutcome.NEGOTIATION_FAILED) := by
  refine ⟨?_, ?_, ?_, ?_, ?_, ?_, ?_⟩
  · intro h
    subst h
    rfl
  · intro hcv hla
    subst hcv
    subst hla
    rfl
  · intro hcv hla hns
    subst hcv
    subst hla
    subst hns
    rfl
  · intro hcv hla hns hfound
    subst hcv
    subst hla
    subst hns
    by_cases htr : t = ""
    · subst htr
      exact absurd hfound (by decide)
    · unfold classify_call_outcome
      rw [if_neg (by decide), if_neg (by decide), if_neg (by decide),
        if_pos htr]
      dsimp only
      rw [if_pos hfound]
  · intro hcv hla hns hdec htrans
    subst hcv
    subst hla
    subst hns
    by_cases htr : t = ""
    · subst htr
      exact absurd htrans (by decide)
    · unfold classify_call_outcome
      rw [if_neg (by decide), if_neg (by decide), if_neg (by decide),
        if_pos htr]
      dsimp only
      rw [if_neg (by simp [hdec]), if_pos htrans]
  · intro hcv hla hns hdec htrans hdis
    subst hcv
    subst hla
    subst hns
    by_cases htr : t = ""
    · subst htr
      exact absurd hdis (by decide)
    · unfold classify_call_outcome
      rw [if_neg (by decide), if_neg (by decide), if_neg (by decide),
        if_pos htr]
      dsimp only
      rw [if_neg (by simp [hdec]), if_neg (by simp [htrans]), if_pos hdis]
  · intro hcv hla hns hdec htrans hdis
    subst hcv
    subst hla
    subst hns
    by_cases htr : t = ""
    · subst htr
      rfl
    · unfold classify_call_outcome
      rw [if_neg (by decide), if_neg (by decide), if_neg (by decide),
        if_pos htr]
      dsimp only
      rw [if_neg (by simp [hdec]), if_neg (by simp [htrans]),
        if_neg (by simp [hdis])]

/-- Witness for C8: the spec scenario — an unverified carrier is classified
`failed_verification` regardless of the other inputs. -/
theorem classify_outcome_priority_witness :
    classify_call_outcome "" false false true =
      CallOutcome.FAILED_VERIFICATION :=
  (classify_outcome_priority "" false false true).1 rfl

/-- C9: `classify_call_sentiment` counts, case-insensitively, how many
keywords of the fixed positive, negative and frustration sets occur in the
transcript and applies, in order: more negative than positive keywords ⇒
negative; more than 2 frustration keywords ⇒ frustrated; any positive
keyword ⇒ positive; otherwise neutral.  An empty transcript is neutral. -/
theorem classify_sentiment_rules (t : String) :
    (t = "" → classify_call_sentiment t = CallSentiment.NEUTRAL) ∧
    (t ≠ "" →
      keywordCount negative_words (pyLower t) >
        keywordCount positive_words (pyLower t) →
      classify_call_sentiment t = CallSentiment.NEGATIVE) ∧
    (t ≠ "" →
      keywordCount negative_words (pyLower t) ≤
        keywordCount positive_words (pyLower t) →
      keywordCount frustrated_words (pyLower t) > 2 →
      classify_call_sentiment t = CallSentiment.FRUSTRATED) ∧
    (t ≠ "" →
      keywordCount negative_words (pyLower t) ≤
        keywordCount positive_words (pyLower t) →
      keywordCount frustrated_words (pyLower t) ≤ 2 →
      keywordCount positive_words (pyLower t) > 0 →
      classify_call_sentiment t = CallSentiment.POSITIVE) ∧
    (t ≠ "" →
      keywordCount negative_words (pyLower t) ≤
        keywordCount positive_words (pyLower t) →
      keywordCount frustrated_words (pyLower t) ≤ 2 →
      keywordCount positive_words (pyLower t) = 0 →
      classify_call_sentiment t = CallSentiment.NEUTRAL) := by
  refine ⟨?_, ?_, ?_, ?_, ?_⟩
  · intro h
    subst h
    rfl
  · intro htr hneg
    unfold classify_call_sentiment
    rw [if_neg htr]
    dsimp only
    rw [if_pos hneg]
  · intro htr hle hfru
    unfold classify_call_sentiment
    rw [if_neg htr]
    dsimp only
    rw [if_neg (not_lt.mpr hle), if_pos hfru]
  · intro htr hle hfle hpos
    unfold classify_call_sentiment
    rw [if_neg htr]
    dsimp only
    rw [if_neg (not_lt.mpr hle), if_neg (not_lt.mpr hfle), if_pos hpos]
  · intro htr hle hfle hpos
    unfold classify_call_sentiment
    rw [if_neg htr]
    dsimp only
    rw [if_neg (not_lt.mpr hle), if_neg (not_lt.mpr hfle),
      if_neg (by omega)]

/-- Witness for C9: the spec scenario — three positive keywords and no
negative ones classify as positive. -/
theorem classify_sentiment_rules_witness :
    classify_call_sentiment "This is great, thank you, much appreciated" =
      CallSentiment.POSITIVE :=
  (classify_sentiment_rules
    "This is great, thank you, much appreciated").2.2.2.1
    (by decide) (by decide) (by decide) (by decide)

end HappyRobot
